import Mathlib

/-!
Verification of the credential-path resolution logic of
`src/examples/authenticated-client.py` (function `authenticated_request`).

The script's decision logic is embedded shallowly:

* environment variables become `Option String` inputs
  (`os.environ.get` yields `none` when the variable is unset);
* the filesystem becomes an existence predicate `String → Bool` and a
  read function `String → OpenResult` (a Python `open`+`read` either
  yields the contents, raises `FileNotFoundError`, or raises some other
  exception such as `PermissionError`);
* the regex search `re.search(r'^PROJECT_ID=(.+)$', content, re.MULTILINE)`
  becomes a first-match scan over the '\n'-separated lines of the content;
* the opaque collaborators (`google.auth` token minting, `requests.post`)
  become injected functions returning `Except`.

All list/string scanning primitives are written with structural recursion
over `List Char` so that concrete runs reduce inside the kernel.
-/

namespace AuthClient

/-- Result of a Python `open(path)` followed by `read()`: the contents, a
`FileNotFoundError`, or any other exception (e.g. `PermissionError` when the
file exists but is unreadable), carried with its message. -/
inductive OpenResult where
  | ok (content : String)
  | fileNotFound
  | otherError (msg : String)
deriving DecidableEq, Repr

/-- A filesystem side effect performed by the script: a `Path(p).exists()`
call or an `open(p)`+`read()`. -/
inductive FsEvent where
  | checkExists (p : String)
  | readFile (p : String)
deriving DecidableEq, Repr

/-- Python truthiness of the `SERVICE_ACCOUNT_FILE` variable, which holds
either `None` or a string: `not x` is true exactly when `x` is `None` or the
empty string. -/
def pyTruthy : Option String → Bool
  | none => false
  | some s => !s.isEmpty

/-- Whitespace for Python `str.strip()` (the characters `str.isspace` accepts
in the ASCII range: space, tab, newline, carriage return, vertical tab, form
feed). -/
def isPySpace (c : Char) : Bool :=
  c == ' ' || c == '\t' || c == '\n' || c == '\r' || c == '\x0b' || c == '\x0c'

/-- Python `str.strip()`: drop leading and trailing whitespace. -/
def pyStrip (s : String) : String :=
  String.mk (((s.data.dropWhile isPySpace).reverse.dropWhile isPySpace).reverse)

/-- Split a string at every `'\n'`, keeping empty segments — the line
structure that `re.MULTILINE` gives to `^` and `$` (auxiliary, structural on
the character list). -/
def splitLinesAux : List Char → List Char → List String
  | [], acc => [String.mk acc.reverse]
  | c :: cs, acc =>
    if c = '\n' then String.mk acc.reverse :: splitLinesAux cs []
    else splitLinesAux cs (c :: acc)

/-- Split a string at every `'\n'`, keeping empty segments. -/
def splitLines (s : String) : List String :=
  splitLinesAux s.data []

/-- Structural prefix test on character lists (pattern first). -/
def beginsWith : List Char → List Char → Bool
  | [], _ => true
  | _ :: _, [] => false
  | p :: ps, c :: cs => p == c && beginsWith ps cs

/-- The key the locator greps for in `.env`. -/
def projKey : String := "PROJECT_ID="

/-- Whether a single line matches the regex `^PROJECT_ID=(.+)$`: it starts
with `PROJECT_ID=` and at least one character follows (`.+` needs one; a line
from `splitLines` contains no `'\n'`, so every later character matches `.`). -/
def isProjectIdLine (l : String) : Bool :=
  beginsWith projKey.data l.data && decide (projKey.length < l.length)

/-- The capture group of `^PROJECT_ID=(.+)$` on a matching line: everything
after the `=`. -/
def lineValue (l : String) : String :=
  String.mk (l.data.drop projKey.length)

/-- Model of lines 23–25 of the script:
`re.search(r'^PROJECT_ID=(.+)$', env_content, re.MULTILINE)` followed by
`match.group(1).strip()`. `re.search` yields the leftmost match, i.e. the
first matching line in order. -/
def projectIdOf (content : String) : Option String :=
  match (splitLines content).find? isProjectIdLine with
  | some l => some (pyStrip (lineValue l))
  | none => none

/-- Line 26 of the script:
`f'service_accounts/{project_id}_service_account.json'`. -/
def projectSpecificPath (pid : String) : String :=
  "service_accounts/" ++ pid ++ "_service_account.json"

/-- Line 31 of the script: the fixed default path. -/
def defaultPath : String := "service_account.json"

/-- Pure form of the credential locator (lines 15–36): inputs are the
`SERVICE_ACCOUNT_PATH` value (`none` when unset), the contents of `.env`
(`none` when `.env` does not exist), and a path-existence predicate.
`none` in the result is the `CredentialNotFound` outcome. -/
def resolveCredential (override : Option String) (dotEnv : Option String)
    (ex : String → Bool) : Option String :=
  let file :=
    if pyTruthy override then override
    else
      let f1 :=
        match dotEnv with
        | none => override
        | some content =>
          match projectIdOf content with
          | none => override
          | some pid =>
            let p := projectSpecificPath pid
            if ex p then some p else override
      if pyTruthy f1 then f1
      else if ex defaultPath then some defaultPath else f1
  if pyTruthy file then file else none

/-- Result of the locator in the traced model: either the final value of the
`SERVICE_ACCOUNT_FILE` variable after lines 15–32 (still subject to the final
truthiness test of line 34), or an uncaught exception — lines 20–22 read
`.env` outside the `try` block, so a failing read there crashes the script. -/
inductive ResolveOutcome where
  | resolved (file : Option String)
  | uncaught (msg : String)
deriving DecidableEq, Repr

/-- Lines 31–32 of the script:
`if not SERVICE_ACCOUNT_FILE and Path('service_account.json').exists():` —
the existence check runs (and is traced) only when the variable is still
falsy, because `and` short-circuits. -/
def tryDefault (file : Option String) (ex : String → Bool)
    (tr : List FsEvent) : ResolveOutcome × List FsEvent :=
  if pyTruthy file then (ResolveOutcome.resolved file, tr)
  else
    let tr2 := tr ++ [FsEvent.checkExists defaultPath]
    if ex defaultPath then (ResolveOutcome.resolved (some defaultPath), tr2)
    else (ResolveOutcome.resolved file, tr2)

/-- Traced form of the credential locator (lines 15–32): same decisions as
`resolveCredential`, but the filesystem is an existence predicate plus a read
function, and every filesystem operation is recorded in order. -/
def resolveCredentialT (override : Option String) (ex : String → Bool)
    (readF : String → OpenResult) : ResolveOutcome × List FsEvent :=
  if pyTruthy override then (ResolveOutcome.resolved override, [])
  else
    let tr0 := [FsEvent.checkExists ".env"]
    if ex ".env" then
      let tr1 := tr0 ++ [FsEvent.readFile ".env"]
      match readF ".env" with
      | OpenResult.fileNotFound => (ResolveOutcome.uncaught "FileNotFoundError", tr1)
      | OpenResult.otherError msg => (ResolveOutcome.uncaught msg, tr1)
      | OpenResult.ok content =>
        match projectIdOf content with
        | some pid =>
          let p := projectSpecificPath pid
          let tr2 := tr1 ++ [FsEvent.checkExists p]
          if ex p then tryDefault (some p) ex tr2
          else tryDefault override ex tr2
        | none => tryDefault override ex tr1
    else tryDefault override ex tr0

/-- Line 42 of the script: the placeholder default for `SERVICE_URL`. -/
def defaultServiceUrl : String := "https://your-service-name-xxxxx.run.app"

/-- The fixed JSON body of lines 63–67. -/
structure RequestBody where
  command : String
  directory : String
deriving DecidableEq, Repr

/-- The body literal of lines 63–67. -/
def requestData : RequestBody :=
  ⟨"echo \"Hello from authenticated Python client\"", "/tmp"⟩

/-- The one outbound HTTP request of lines 69–74. -/
structure HttpRequest where
  method : String
  url : String
  authHeader : String
  contentType : String
  body : RequestBody
deriving DecidableEq, Repr

/-- Terminal outcome of one run of `authenticated_request`. The spec's
taxonomy: `credentialNotFound` is the lines 34–37 early return,
`credentialFileUnreadable` is the `except FileNotFoundError` handler of
lines 78–80, `caughtError` is the `except Exception` catch-all of
lines 81–82, `uncaughtCrash` is an exception outside the `try` block. -/
inductive Outcome where
  | credentialNotFound
  | credentialFileUnreadable (path : String)
  | caughtError (msg : String)
  | success (response : String)
  | uncaughtCrash (msg : String)
deriving DecidableEq, Repr

/-- Everything observable about one run: the terminal outcome, the console
lines printed, the filesystem events in order, and the HTTP requests
issued. -/
structure RunResult where
  outcome : Outcome
  printed : List String
  fsTrace : List FsEvent
  requests : List HttpRequest
deriving DecidableEq, Repr

/-- The ambient world of one run: the two environment variables and the
opaque collaborators — filesystem, token minting
(`json.load` + `jwt.Credentials.from_service_account_info` + `refresh`,
taking the key-file contents and the audience, yielding a token or an
exception message) and the HTTP POST (`requests.post` + `response.json()`,
yielding the response JSON or an exception message). -/
structure World where
  serviceAccountPath : Option String
  serviceUrl : Option String
  pathExists : String → Bool
  readFile : String → OpenResult
  mintToken : String → String → Except String String
  post : HttpRequest → Except String String

/-- Line 42: `os.environ.get('SERVICE_URL', 'https://your-service-name-xxxxx.run.app')`. -/
def serviceURL (w : World) : String :=
  w.serviceUrl.getD defaultServiceUrl

/-- The whole of `authenticated_request` (lines 9–82): resolve the
credential path, fail fast when none is found, then open the key file,
mint a token, and issue the single POST, mapping each Python exception
path to its handler. -/
def authenticated_request (w : World) : RunResult :=
  match resolveCredentialT w.serviceAccountPath w.pathExists w.readFile with
  | (ResolveOutcome.uncaught msg, tr) =>
    ⟨Outcome.uncaughtCrash msg, [], tr, []⟩
  | (ResolveOutcome.resolved file, tr) =>
    match file with
    | none =>
      ⟨Outcome.credentialNotFound,
        ["Error: No service account key found.",
         "Run ./scripts/download-service-account-key.sh to download it"],
        tr, []⟩
    | some p =>
      if p.isEmpty then
        ⟨Outcome.credentialNotFound,
          ["Error: No service account key found.",
           "Run ./scripts/download-service-account-key.sh to download it"],
          tr, []⟩
      else
        let printed0 := ["Using service account key: " ++ p]
        let url := serviceURL w
        let tr2 := tr ++ [FsEvent.readFile p]
        match w.readFile p with
        | OpenResult.fileNotFound =>
          ⟨Outcome.credentialFileUnreadable p,
            printed0 ++
              ["Error: Service account file " ++ p ++ " not found",
               "Run ./scripts/download-service-account-key.sh to download it"],
            tr2, []⟩
        | OpenResult.otherError msg =>
          ⟨Outcome.caughtError msg, printed0 ++ ["Error: " ++ msg], tr2, []⟩
        | OpenResult.ok content =>
          match w.mintToken content url with
          | Except.error msg =>
            ⟨Outcome.caughtError msg, printed0 ++ ["Error: " ++ msg], tr2, []⟩
          | Except.ok token =>
            let req : HttpRequest :=
              ⟨"POST", url ++ "/process", "Bearer " ++ token,
               "application/json", requestData⟩
            match w.post req with
            | Except.error msg =>
              ⟨Outcome.caughtError msg, printed0 ++ ["Error: " ++ msg],
                tr2, [req]⟩
            | Except.ok resp =>
              ⟨Outcome.success resp, printed0 ++ ["Response: " ++ resp],
                tr2, [req]⟩

/-- Whether a filesystem event is an existence check. -/
def isCheckExists : FsEvent → Bool
  | FsEvent.checkExists _ => true
  | FsEvent.readFile _ => false

/-- Number of `Path(...).exists()` calls in a trace. -/
def countChecks (tr : List FsEvent) : Nat :=
  (tr.filter isCheckExists).length

/-- Number of file reads in a trace. -/
def countReads (tr : List FsEvent) : Nat :=
  (tr.filter (fun e => !isCheckExists e)).length

/-- C1 (amended: the override must be non-empty, because Python's
`if not SERVICE_ACCOUNT_FILE` treats the empty string like an unset
variable — see C9): when `SERVICE_ACCOUNT_PATH` is present with a non-empty
value, resolution returns exactly that path and performs no filesystem
access at all — in particular no existence check on it — regardless of the
configuration file's existence or contents. -/
theorem c1_override_returned (ov : String) (hov : ov ≠ "")
    (ex : String → Bool) (readF : String → OpenResult) :
    resolveCredentialT (some ov) ex readF
      = (ResolveOutcome.resolved (some ov), []) := by
  have he : ov.isEmpty = false := by
    rw [Bool.eq_false_iff]
    intro hh
    exact hov ((String.isEmpty_iff ov).mp hh)
  have h : pyTruthy (some ov) = true := by simp [pyTruthy, he]
  simp [resolveCredentialT, h]

/-- Witness for C1 at a concrete non-empty override, hostile filesystem. -/
theorem c1_override_returned_witness :
    ("creds/key.json" : String) ≠ "" ∧
    resolveCredentialT (some "creds/key.json") (fun _ => true)
        (fun _ => OpenResult.fileNotFound)
      = (ResolveOutcome.resolved (some "creds/key.json"), []) :=
  ⟨by decide, c1_override_returned "creds/key.json" (by decide) _ _⟩

/-- C1 counterexample to the claim as stated: with `SERVICE_ACCOUNT_PATH`
present but equal to the empty string, and the default path existing,
resolution returns the default path, not the override. -/
theorem c1_counterexample :
    (resolveCredentialT (some "") (fun p => p == "service_account.json")
        (fun _ => OpenResult.fileNotFound)).1
      = ResolveOutcome.resolved (some "service_account.json") ∧
    ResolveOutcome.resolved (some "service_account.json")
      ≠ ResolveOutcome.resolved (some ("" : String)) := by
  constructor
  · decide
  · decide

/-- C5: resolution is a pure function of its inputs — two calls with
identical override, configuration contents and existence predicate yield
identical output. -/
theorem c5_deterministic (o₁ o₂ d₁ d₂ : Option String)
    (e₁ e₂ : String → Bool) (ho : o₁ = o₂) (hd : d₁ = d₂) (he : e₁ = e₂) :
    resolveCredential o₁ d₁ e₁ = resolveCredential o₂ d₂ e₂ := by
  rw [ho, hd, he]

/-- Witness for C5: two runs on the same concrete input agree. -/
theorem c5_deterministic_witness :
    (some "k.json" : Option String) = some "k.json" ∧
    (some "PROJECT_ID=acme" : Option String) = some "PROJECT_ID=acme" ∧
    (fun _ : String => false) = (fun _ : String => false) ∧
    resolveCredential (some "k.json") (some "PROJECT_ID=acme") (fun _ => false)
      = resolveCredential (some "k.json") (some "PROJECT_ID=acme")
          (fun _ => false) :=
  ⟨rfl, rfl, rfl, c5_deterministic _ _ _ _ _ _ rfl rfl rfl⟩

/-- C9: an override set to the empty string behaves exactly like an absent
override — resolution proceeds to the project-specific and default
fallbacks and never returns the empty path. -/
theorem c9_empty_override (dotEnv : Option String) (ex : String → Bool) :
    resolveCredential (some "") dotEnv ex = resolveCredential none dotEnv ex := by
  have h0 : pyTruthy (some "") = false := by decide
  have h1 : pyTruthy none = false := rfl
  unfold resolveCredential
  cases dotEnv with
  | none =>
    by_cases hd : ex defaultPath = true <;> simp [h0, h1, hd]
  | some c =>
    cases hpid : projectIdOf c with
    | none =>
      by_cases hd : ex defaultPath = true <;> simp [h0, h1, hpid, hd]
    | some pid =>
      by_cases hp : ex (projectSpecificPath pid) = true
      · simp [h0, h1, hpid, hp]
      · by_cases hd : ex defaultPath = true <;> simp [h0, h1, hpid, hp, hd]

/-- A project-specific path is never the empty string (it starts with
`service_accounts/`), so the Python variable holding it is truthy. -/
theorem pyTruthy_projectSpecificPath (pid : String) :
    pyTruthy (some (projectSpecificPath pid)) = true := by
  simp only [pyTruthy, Bool.not_eq_true', Bool.eq_false_iff]
  intro hh
  have h := (String.isEmpty_iff _).mp hh
  have hd : (projectSpecificPath pid).data = [] := by rw [h]
  simp [projectSpecificPath, String.data_append] at hd

/-- An absent override is falsy. -/
theorem pyTruthy_none : pyTruthy none = false := rfl

/-- The default path is a non-empty string. -/
theorem defaultPath_not_empty : defaultPath.isEmpty = false := by decide

/-- With no override, a configuration yielding project id `pid`, and an
existing file at the project-specific path, resolution returns that path. -/
theorem resolve_project_found (content : String) (ex : String → Bool)
    (pid : String) (hpid : projectIdOf content = some pid)
    (hex : ex (projectSpecificPath pid) = true) :
    resolveCredential none (some content) ex
      = some (projectSpecificPath pid) := by
  simp [resolveCredential, pyTruthy_none, hpid, hex,
    pyTruthy_projectSpecificPath]

/-- C2: with no override, a configuration whose (first) `PROJECT_ID` line is
`PROJECT_ID=acme`, and an existing file at
`service_accounts/acme_service_account.json`, resolution returns that
project-specific path. -/
theorem c2_project_specific (content : String) (ex : String → Bool)
    (hline : (splitLines content).find? isProjectIdLine
      = some "PROJECT_ID=acme")
    (hex : ex "service_accounts/acme_service_account.json" = true) :
    resolveCredential none (some content) ex
      = some "service_accounts/acme_service_account.json" := by
  have hpid : projectIdOf content = some "acme" := by
    rw [projectIdOf, hline]
    decide
  have hp : projectSpecificPath "acme"
      = "service_accounts/acme_service_account.json" := by decide
  have h := resolve_project_found content ex "acme" hpid
    (by rw [hp]; exact hex)
  rw [hp] at h
  exact h

/-- Witness for C2 on a concrete multi-line configuration. -/
theorem c2_project_specific_witness :
    (splitLines "FOO=1\nPROJECT_ID=acme\nBAR=2").find? isProjectIdLine
      = some "PROJECT_ID=acme" ∧
    ((fun p => p == "service_accounts/acme_service_account.json") :
        String → Bool) "service_accounts/acme_service_account.json" = true ∧
    resolveCredential none (some "FOO=1\nPROJECT_ID=acme\nBAR=2")
        (fun p => p == "service_accounts/acme_service_account.json")
      = some "service_accounts/acme_service_account.json" :=
  ⟨by decide, by decide,
    c2_project_specific "FOO=1\nPROJECT_ID=acme\nBAR=2" _ (by decide)
      (by decide)⟩

/-- C3: with no override, no existing file at the project-specific path the
configuration may point to, but an existing default path, resolution
returns the default path. -/
theorem c3_default_used (dotEnv : Option String) (ex : String → Bool)
    (hproj : ∀ c pid, dotEnv = some c → projectIdOf c = some pid →
      ex (projectSpecificPath pid) = false)
    (hdef : ex defaultPath = true) :
    resolveCredential none dotEnv ex = some defaultPath := by
  unfold resolveCredential
  cases dotEnv with
  | none => simp [pyTruthy, hdef, defaultPath_not_empty]
  | some c =>
    cases hpid : projectIdOf c with
    | none => simp [pyTruthy, hpid, hdef, defaultPath_not_empty]
    | some pid =>
      have hp := hproj c pid rfl hpid
      simp [pyTruthy, hpid, hp, hdef, defaultPath_not_empty]

/-- Witness for C3: no configuration file, default present. -/
theorem c3_default_used_witness :
    ((fun p => p == "service_account.json") : String → Bool)
        defaultPath = true ∧
    resolveCredential none none (fun p => p == "service_account.json")
      = some defaultPath :=
  ⟨by decide,
    c3_default_used none _ (fun c pid hc _ => by cases hc) (by decide)⟩

/-- Helper: `List.find?` returns the element at the least index satisfying
the predicate. -/
theorem find_eq_of_first_match {α : Type} (p : α → Bool) (xs : List α) :
    ∀ (i : Nat) (hi : i < xs.length), p (xs.get ⟨i, hi⟩) = true →
      (∀ (j : Nat) (hj : j < xs.length), j < i → p (xs.get ⟨j, hj⟩) = false) →
      xs.find? p = some (xs.get ⟨i, hi⟩) := by
  induction xs with
  | nil => intro i hi _ _; exact absurd hi (by simp)
  | cons x xs ih =>
    intro i hi hp hmin
    cases i with
    | zero =>
      simp only [List.get] at hp ⊢
      rw [List.find?_cons_of_pos _ hp]
    | succ n =>
      have hx : p x = false := hmin 0 (by simp) (Nat.succ_pos n)
      rw [List.find?_cons_of_neg _ (by simp [hx])]
      simp only [List.get] at hp ⊢
      exact ih n (Nat.lt_of_succ_lt_succ hi) hp
        (fun j hj hji =>
          hmin (j + 1) (Nat.succ_lt_succ hj) (Nat.succ_lt_succ hji))

/-- C10: when several lines match `^PROJECT_ID=(.+)$` the first matching
line is the one used — its value is stripped of surrounding whitespace and
formatted into `service_accounts/{project_id}_service_account.json`, and
resolution returns that path when it exists; when no line matches,
resolution falls through to the default path without error. -/
theorem c10_first_match_and_fallthrough (content : String)
    (ex : String → Bool) :
    (∀ (i : Nat) (hi : i < (splitLines content).length),
      isProjectIdLine ((splitLines content).get ⟨i, hi⟩) = true →
      (∀ (j : Nat) (hj : j < (splitLines content).length), j < i →
        isProjectIdLine ((splitLines content).get ⟨j, hj⟩) = false) →
      ex (projectSpecificPath
        (pyStrip (lineValue ((splitLines content).get ⟨i, hi⟩)))) = true →
      resolveCredential none (some content) ex
        = some (projectSpecificPath
            (pyStrip (lineValue ((splitLines content).get ⟨i, hi⟩))))) ∧
    ((splitLines content).find? isProjectIdLine = none →
      resolveCredential none (some content) ex
        = if ex defaultPath then some defaultPath else none) := by
  constructor
  · intro i hi hp hmin hex
    have hfind := find_eq_of_first_match isProjectIdLine (splitLines content)
      i hi hp hmin
    have hpid : projectIdOf content
        = some (pyStrip (lineValue ((splitLines content).get ⟨i, hi⟩))) := by
      rw [projectIdOf, hfind]
    exact resolve_project_found content ex _ hpid hex
  · intro hnone
    have hpid : projectIdOf content = none := by
      rw [projectIdOf, hnone]
    by_cases hd : ex defaultPath = true <;>
      simp [resolveCredential, pyTruthy, hpid, hd, defaultPath_not_empty]

/-- Witness for C10 at a configuration with two `PROJECT_ID` lines: the
first one (index 1, value ` first ` stripped to `first`) wins. -/
theorem c10_first_match_witness :
    isProjectIdLine "PROJECT_ID= first " = true ∧
    resolveCredential none (some "X=1\nPROJECT_ID= first \nPROJECT_ID=second")
        (fun p => p == "service_accounts/first_service_account.json")
      = some "service_accounts/first_service_account.json" := by
  refine ⟨by decide, ?_⟩
  have h := (c10_first_match_and_fallthrough
      "X=1\nPROJECT_ID= first \nPROJECT_ID=second"
      (fun p => p == "service_accounts/first_service_account.json")).1
    1 (by decide) (by decide) (by decide) (by decide)
  have he : projectSpecificPath (pyStrip (lineValue
      ((splitLines "X=1\nPROJECT_ID= first \nPROJECT_ID=second").get
        ⟨1, by decide⟩)))
      = "service_accounts/first_service_account.json" := by decide
  rw [he] at h
  exact h

/-- When the default path is missing, lines 31–32 leave a falsy variable
unchanged. -/
theorem tryDefault_none (ex : String → Bool) (tr : List FsEvent)
    (hdef : ex defaultPath = false) :
    (tryDefault none ex tr).1 = ResolveOutcome.resolved none := by
  simp [tryDefault, pyTruthy_none, hdef]

/-- When no override is set, no project-specific candidate exists and the
default path is missing, the locator resolves to `None`. -/
theorem resolveCredentialT_notFound (ex : String → Bool)
    (readF : String → OpenResult)
    (henv : ex ".env" = true → ∃ c, readF ".env" = OpenResult.ok c ∧
      ∀ pid, projectIdOf c = some pid →
        ex (projectSpecificPath pid) = false)
    (hdef : ex defaultPath = false) :
    (resolveCredentialT none ex readF).1 = ResolveOutcome.resolved none := by
  by_cases he : ex ".env" = true
  · obtain ⟨c, hc, hp⟩ := henv he
    cases hpid : projectIdOf c with
    | none =>
      simp [resolveCredentialT, pyTruthy_none, he, hc, hpid,
        tryDefault_none ex _ hdef]
    | some pid =>
      have hpp := hp pid hpid
      simp [resolveCredentialT, pyTruthy_none, he, hc, hpid, hpp,
        tryDefault_none ex _ hdef]
  · simp [resolveCredentialT, pyTruthy_none, he, tryDefault_none ex _ hdef]

/-- C4: when no override is present, no project-specific file exists and
the default path does not exist, the run ends in `CredentialNotFound`,
prints the error and the remediation hint naming the provisioning script,
and issues no request (no path is used). -/
theorem c4_credential_not_found (w : World)
    (hov : w.serviceAccountPath = none)
    (henv : w.pathExists ".env" = true →
      ∃ c, w.readFile ".env" = OpenResult.ok c ∧
        ∀ pid, projectIdOf c = some pid →
          w.pathExists (projectSpecificPath pid) = false)
    (hdef : w.pathExists defaultPath = false) :
    (authenticated_request w).outcome = Outcome.credentialNotFound ∧
    (authenticated_request w).printed =
      ["Error: No service account key found.",
       "Run ./scripts/download-service-account-key.sh to download it"] ∧
    (authenticated_request w).requests = [] := by
  rcases hR : resolveCredentialT none w.pathExists w.readFile with ⟨o, tr⟩
  have ho : o = ResolveOutcome.resolved none := by
    have h := resolveCredentialT_notFound w.pathExists w.readFile henv hdef
    rw [hR] at h
    exact h
  subst ho
  simp [authenticated_request, hov, hR]

/-- Witness for C4: empty environment, empty filesystem. -/
theorem c4_credential_not_found_witness :
    (World.mk none none (fun _ => false) (fun _ => OpenResult.fileNotFound)
        (fun _ _ => Except.error "unused")
        (fun _ => Except.error "unused")).serviceAccountPath = none ∧
    ((authenticated_request
        (World.mk none none (fun _ => false)
          (fun _ => OpenResult.fileNotFound)
          (fun _ _ => Except.error "unused")
          (fun _ => Except.error "unused"))).outcome
        = Outcome.credentialNotFound ∧
      (authenticated_request
        (World.mk none none (fun _ => false)
          (fun _ => OpenResult.fileNotFound)
          (fun _ _ => Except.error "unused")
          (fun _ => Except.error "unused"))).printed =
        ["Error: No service account key found.",
         "Run ./scripts/download-service-account-key.sh to download it"] ∧
      (authenticated_request
        (World.mk none none (fun _ => false)
          (fun _ => OpenResult.fileNotFound)
          (fun _ _ => Except.error "unused")
          (fun _ => Except.error "unused"))).requests = []) :=
  ⟨rfl,
    c4_credential_not_found _ rfl
      (fun he => absurd he (by decide)) (by decide)⟩

/-- The empty trace has no reads. -/
theorem countReads_nil : countReads [] = 0 := rfl

/-- The empty trace has no checks. -/
theorem countChecks_nil : countChecks [] = 0 := rfl

/-- An existence check adds one to the check count. -/
theorem countChecks_cons_check (p : String) (tr : List FsEvent) :
    countChecks (FsEvent.checkExists p :: tr) = countChecks tr + 1 := by
  simp [countChecks, List.filter, isCheckExists]

/-- A read does not change the check count. -/
theorem countChecks_cons_read (p : String) (tr : List FsEvent) :
    countChecks (FsEvent.readFile p :: tr) = countChecks tr := by
  simp [countChecks, List.filter, isCheckExists]

/-- An existence check does not change the read count. -/
theorem countReads_cons_check (p : String) (tr : List FsEvent) :
    countReads (FsEvent.checkExists p :: tr) = countReads tr := by
  simp [countReads, List.filter, isCheckExists]

/-- A read adds one to the read count. -/
theorem countReads_cons_read (p : String) (tr : List FsEvent) :
    countReads (FsEvent.readFile p :: tr) = countReads tr + 1 := by
  simp [countReads, List.filter, isCheckExists]

/-- Check counts add over concatenation. -/
theorem countChecks_append (a b : List FsEvent) :
    countChecks (a ++ b) = countChecks a + countChecks b := by
  simp [countChecks, List.filter_append]

/-- Read counts add over concatenation. -/
theorem countReads_append (a b : List FsEvent) :
    countReads (a ++ b) = countReads a + countReads b := by
  simp [countReads, List.filter_append]

/-- Lines 31–32 perform no read and at most one more existence check. -/
theorem tryDefault_counts (file : Option String) (ex : String → Bool)
    (tr : List FsEvent) :
    countReads (tryDefault file ex tr).2 = countReads tr ∧
    countChecks (tryDefault file ex tr).2 ≤ countChecks tr + 1 := by
  unfold tryDefault
  by_cases h : pyTruthy file = true
  · simp [h]
  · by_cases hd : ex defaultPath = true <;>
      simp [h, hd, countReads_append, countChecks_append,
        countReads_cons_check, countChecks_cons_check,
        countReads_nil, countChecks_nil]

/-- C6 (amended: up to three existence checks, because the locator also
tests whether the configuration file `.env` itself exists before the up to
two checks on candidate credential paths): resolution performs at most one
filesystem read — the configuration file — and at most three existence
checks, and its trace contains nothing else. -/
theorem c6_resolution_effects (o : Option String) (ex : String → Bool)
    (readF : String → OpenResult) :
    countReads (resolveCredentialT o ex readF).2 ≤ 1 ∧
    countChecks (resolveCredentialT o ex readF).2 ≤ 3 := by
  by_cases h1 : pyTruthy o = true
  · have hres : resolveCredentialT o ex readF
        = (ResolveOutcome.resolved o, []) := by
      simp [resolveCredentialT, h1]
    rw [hres]
    exact ⟨by simp [countReads_nil], by simp [countChecks_nil]⟩
  · by_cases h2 : ex ".env" = true
    · rcases hr : readF ".env" with c | _ | msg
      · rcases hpid : projectIdOf c with _ | pid
        · have hres : resolveCredentialT o ex readF
              = tryDefault o ex
                  [FsEvent.checkExists ".env", FsEvent.readFile ".env"] := by
            simp [resolveCredentialT, h1, h2, hr, hpid]
          rw [hres]
          obtain ⟨hA, hB⟩ := tryDefault_counts o ex
            [FsEvent.checkExists ".env", FsEvent.readFile ".env"]
          refine ⟨?_, ?_⟩
          · rw [hA]
            simp [countReads_cons_check, countReads_cons_read, countReads_nil]
          · refine Nat.le_trans hB ?_
            simp [countChecks_cons_check, countChecks_cons_read,
              countChecks_nil]
        · by_cases h3 : ex (projectSpecificPath pid) = true
          all_goals
            have hres : resolveCredentialT o ex readF
                = tryDefault
                    (if ex (projectSpecificPath pid) = true
                      then some (projectSpecificPath pid) else o) ex
                    [FsEvent.checkExists ".env", FsEvent.readFile ".env",
                     FsEvent.checkExists (projectSpecificPath pid)] := by
              simp [resolveCredentialT, h1, h2, hr, hpid, h3]
          all_goals
            rw [hres]
            obtain ⟨hA, hB⟩ := tryDefault_counts
              (if ex (projectSpecificPath pid) = true
                then some (projectSpecificPath pid) else o) ex
              [FsEvent.checkExists ".env", FsEvent.readFile ".env",
               FsEvent.checkExists (projectSpecificPath pid)]
            refine ⟨?_, ?_⟩
            · rw [hA]
              simp [countReads_cons_check, countReads_cons_read,
                countReads_nil]
            · refine Nat.le_trans hB ?_
              simp [countChecks_cons_check, countChecks_cons_read,
                countChecks_nil]
      · have hres : resolveCredentialT o ex readF
            = (ResolveOutcome.uncaught "FileNotFoundError",
               [FsEvent.checkExists ".env", FsEvent.readFile ".env"]) := by
          simp [resolveCredentialT, h1, h2, hr]
        rw [hres]
        refine ⟨?_, ?_⟩
        · simp [countReads_cons_check, countReads_cons_read, countReads_nil]
        · simp [countChecks_cons_check, countChecks_cons_read, countChecks_nil]
      · have hres : resolveCredentialT o ex readF
            = (ResolveOutcome.uncaught msg,
               [FsEvent.checkExists ".env", FsEvent.readFile ".env"]) := by
          simp [resolveCredentialT, h1, h2, hr]
        rw [hres]
        refine ⟨?_, ?_⟩
        · simp [countReads_cons_check, countReads_cons_read, countReads_nil]
        · simp [countChecks_cons_check, countChecks_cons_read, countChecks_nil]
    · have hres : resolveCredentialT o ex readF
          = tryDefault o ex [FsEvent.checkExists ".env"] := by
        simp [resolveCredentialT, h1, h2]
      rw [hres]
      obtain ⟨hA, hB⟩ := tryDefault_counts o ex [FsEvent.checkExists ".env"]
      refine ⟨?_, ?_⟩
      · rw [hA]
        simp [countReads_cons_check, countReads_nil]
      · refine Nat.le_trans hB ?_
        simp [countChecks_cons_check, countChecks_nil]

/-- C6 counterexample to the claim as stated: with no override, an existing
`.env` naming project `acme`, and no key files on disk, the locator performs
three existence checks (`.env`, the project-specific path, the default
path), not at most two. -/
theorem c6_counterexample :
    ¬ countChecks ((resolveCredentialT none (fun p => p == ".env")
        (fun p => if p == ".env" then OpenResult.ok "PROJECT_ID=acme"
                  else OpenResult.fileNotFound)).2) ≤ 2 := by decide

/-- C7 (amended: the dedicated handler fires only when the open raises
file-not-found; a path that exists but is unreadable raises a different
exception, e.g. `PermissionError`, and lands in the catch-all without the
remediation hint): when the resolved credential path is missing at open
time, the run ends in `CredentialFileUnreadable`, prints the error and the
remediation hint, issues no request, and the open is attempted exactly
once — never retried. -/
theorem c7_missing_at_open (w : World) (p : String)
    (hres : (resolveCredentialT w.serviceAccountPath w.pathExists
        w.readFile).1 = ResolveOutcome.resolved (some p))
    (hne : p ≠ "")
    (hopen : w.readFile p = OpenResult.fileNotFound) :
    (authenticated_request w).outcome = Outcome.credentialFileUnreadable p ∧
    (authenticated_request w).printed =
      ["Using service account key: " ++ p,
       "Error: Service account file " ++ p ++ " not found",
       "Run ./scripts/download-service-account-key.sh to download it"] ∧
    (authenticated_request w).requests = [] ∧
    (authenticated_request w).fsTrace =
      (resolveCredentialT w.serviceAccountPath w.pathExists w.readFile).2
        ++ [FsEvent.readFile p] := by
  rcases hR : resolveCredentialT w.serviceAccountPath w.pathExists
    w.readFile with ⟨o, tr⟩
  rw [hR] at hres
  have ho : o = ResolveOutcome.resolved (some p) := hres
  subst ho
  have hpe : p.isEmpty = false := by
    rw [Bool.eq_false_iff]
    intro hh
    exact hne ((String.isEmpty_iff p).mp hh)
  simp [authenticated_request, hR, hpe, hopen]

/-- World for the C7 witness: override points at a key file the filesystem
does not have. -/
def c7_missing_world : World :=
  ⟨some "key.json", none, fun _ => false,
   fun _ => OpenResult.fileNotFound,
   fun _ _ => Except.error "unused", fun _ => Except.error "unused"⟩

/-- Witness for C7 at `c7_missing_world`. -/
theorem c7_missing_at_open_witness :
    ("key.json" : String) ≠ "" ∧
    ((authenticated_request c7_missing_world).outcome
        = Outcome.credentialFileUnreadable "key.json" ∧
      (authenticated_request c7_missing_world).printed =
        ["Using service account key: " ++ "key.json",
         "Error: Service account file " ++ "key.json" ++ " not found",
         "Run ./scripts/download-service-account-key.sh to download it"] ∧
      (authenticated_request c7_missing_world).requests = [] ∧
      (authenticated_request c7_missing_world).fsTrace =
        (resolveCredentialT c7_missing_world.serviceAccountPath
            c7_missing_world.pathExists c7_missing_world.readFile).2
          ++ [FsEvent.readFile "key.json"]) :=
  ⟨by decide,
    c7_missing_at_open c7_missing_world "key.json" (by decide) (by decide)
      rfl⟩

/-- World for the C7 counterexample: the key file exists but its open fails
with a permission error. -/
def c7_unreadable_world : World :=
  ⟨some "key.json", none, fun _ => false,
   fun _ => OpenResult.otherError "Permission denied",
   fun _ _ => Except.error "unused", fun _ => Except.error "unused"⟩

/-- C7 counterexample to the claim as stated: an unreadable (but present)
credential file is reported by the generic catch-all with its message, not
as `CredentialFileUnreadable`, and no remediation hint is printed. -/
theorem c7_counterexample :
    (authenticated_request c7_unreadable_world).outcome
      = Outcome.caughtError "Permission denied" ∧
    (authenticated_request c7_unreadable_world).outcome
      ≠ Outcome.credentialFileUnreadable "key.json" ∧
    ¬ "Run ./scripts/download-service-account-key.sh to download it"
        ∈ (authenticated_request c7_unreadable_world).printed := by decide

/-- C8: when `SERVICE_URL` is unset the client uses the fixed placeholder
default URL, and any outbound request of the run is a POST to that base
URL plus the fixed path `/process`. -/
theorem c8_default_url (w : World) (h : w.serviceUrl = none) :
    serviceURL w = defaultServiceUrl ∧
    ((authenticated_request w).requests.all fun r =>
      r.method == "POST"
        && r.url == defaultServiceUrl ++ "/process") = true := by
  have hu : serviceURL w = defaultServiceUrl := by simp [serviceURL, h]
  refine ⟨hu, ?_⟩
  unfold authenticated_request
  rw [hu]
  rcases hR : resolveCredentialT w.serviceAccountPath w.pathExists
    w.readFile with ⟨o, tr⟩
  cases o with
  | uncaught msg => simp
  | resolved file =>
    cases file with
    | none => simp
    | some p =>
      by_cases hp : p.isEmpty = true
      · simp [hp]
      · rcases hread : w.readFile p with c | _ | m
        · rcases hmint : w.mintToken c defaultServiceUrl with m | token
          · simp [hp, hread, hmint]
          · rcases hpost : w.post ⟨"POST", defaultServiceUrl ++ "/process",
                "Bearer " ++ token, "application/json", requestData⟩
              with m | resp
            · simp [hp, hread, hmint, hpost]
            · simp [hp, hread, hmint, hpost]
        · simp [hp, hread]
        · simp [hp, hread]

/-- World for the C8 witness: a run that reaches the network call with
`SERVICE_URL` unset. -/
def c8_world : World :=
  ⟨some "key.json", none, fun _ => false, fun _ => OpenResult.ok "KEY",
   fun _ _ => Except.ok "tok", fun _ => Except.ok "resp"⟩

/-- Witness for C8 at `c8_world`, whose run issues the request. -/
theorem c8_default_url_witness :
    c8_world.serviceUrl = none ∧
    (serviceURL c8_world = defaultServiceUrl ∧
      ((authenticated_request c8_world).requests.all fun r =>
        r.method == "POST"
          && r.url == defaultServiceUrl ++ "/process") = true) :=
  ⟨rfl, c8_default_url c8_world rfl⟩

end AuthClient
